import Mathlib

/-!
Verification of the badger `fix` command (cmd/fix.go): the corruption-recovery
workflow `removeEmptyTables` and the recursive directory copy `CopyDirectory`
with its helpers `Copy`, `CopySymLink`, `CreateIfNotExists`, `Exists`.

Strings are modelled as `List Char`. Go string operations used by the source
(`strings.Split` on ":", `strings.TrimSpace`, `strings.Contains`) are embedded
below; `TrimSpace` is modelled over the ASCII whitespace characters.
-/

namespace Fix

/-- Ascii whitespace predicate, modelling the characters Go's
`strings.TrimSpace` removes (restricted to the ASCII range). -/
def goIsSpace (c : Char) : Bool :=
  c = ' ' || c = '\t' || c = '\n' || c = '\r' ||
  c = Char.ofNat 11 || c = Char.ofNat 12

/-- Go `strings.TrimSpace`: drop leading and trailing whitespace. -/
def trimSpaceL (s : List Char) : List Char :=
  ((s.dropWhile goIsSpace).reverse.dropWhile goIsSpace).reverse

/-- Go `strings.Split(s, ":")` for the single-character separator used at
fix.go line 75: splits `s` on every colon; splitting the empty string gives
one empty field, and a string without colons gives the single field `s`. -/
def splitColon : List Char → List (List Char)
  | [] => [[]]
  | c :: rest =>
    let r := splitColon rest
    if c = ':' then [] :: r
    else
      match r with
      | [] => [[c]]
      | h :: t => (c :: h) :: t

/-- Last element of a list of fields, modelling the indexing
`parts[len(parts)-1]` of fix.go line 76 (the empty field when the list is
empty, which cannot happen for the output of `splitColon`). -/
def lastD : List (List Char) → List Char
  | [] => []
  | [x] => x
  | _ :: x :: xs => lastD (x :: xs)

/-- Whether a colon occurs in the string. -/
def hasColon : List Char → Bool
  | [] => false
  | c :: rest => c = ':' || hasColon rest

/-- The substring of `s` strictly after the last colon, or all of `s` when
`s` has no colon.  This is the specification-side description of the path
extraction ("the trimmed substring after the last `:` of the text"). -/
def afterLastColon : List Char → List Char
  | [] => []
  | c :: rest =>
    if hasColon rest then afterLastColon rest
    else if c = ':' then rest
    else c :: rest

/-- Prefix test on character lists (helper for `containsSub`). -/
def leadsWith : List Char → List Char → Bool
  | [], _ => true
  | _ :: _, [] => false
  | a :: as, b :: bs => a = b && leadsWith as bs

/-- Go `strings.Contains(s, sub)`: `sub` occurs as a contiguous substring
of `s`. -/
def containsSub (s sub : List Char) : Bool :=
  match s with
  | [] => leadsWith sub []
  | _ :: rest => leadsWith sub s || containsSub rest sub

/-- The path extraction of fix.go lines 75-77: split the error text on
colons, take the last field, trim surrounding whitespace. -/
def extractPath (s : List Char) : List Char :=
  trimSpaceL (lastD (splitColon s))

lemma splitColon_ne_nil (s : List Char) : splitColon s ≠ [] := by
  induction s with
  | nil => simp [splitColon]
  | cons c rest ih =>
    simp only [splitColon]
    split
    · simp
    · cases h : splitColon rest with
      | nil => exact absurd h ih
      | cons a t => simp [h]

lemma splitColon_no_colon (s : List Char) (h : hasColon s = false) :
    splitColon s = [s] := by
  induction s with
  | nil => rfl
  | cons c rest ih =>
    simp only [hasColon, Bool.or_eq_false_iff] at h
    obtain ⟨hc, hr⟩ := h
    have hc' : ¬ c = ':' := by
      intro hcc; rw [hcc] at hc; simp at hc
    simp only [splitColon, if_neg hc', ih hr]

lemma splitColon_colon_len (s : List Char) (h : hasColon s = true) :
    2 ≤ (splitColon s).length := by
  induction s with
  | nil => simp [hasColon] at h
  | cons c rest ih =>
    simp only [hasColon, Bool.or_eq_true] at h
    simp only [splitColon]
    by_cases hc : c = ':'
    · rw [if_pos hc]
      cases hr : splitColon rest with
      | nil => exact absurd hr (splitColon_ne_nil rest)
      | cons a t => simp
    · rw [if_neg hc]
      have hrest : hasColon rest = true := by
        rcases h with h | h
        · exact absurd (of_decide_eq_true h) hc
        · exact h
      cases hr : splitColon rest with
      | nil => exact absurd hr (splitColon_ne_nil rest)
      | cons a t =>
        have hlen := ih hrest
        rw [hr] at hlen
        simp at hlen ⊢
        omega

lemma lastD_cons_of_ne_nil (x : List Char) (r : List (List Char)) (h : r ≠ []) :
    lastD (x :: r) = lastD r := by
  cases r with
  | nil => exact absurd rfl h
  | cons a t => rfl

lemma afterLastColon_no_colon (s : List Char) (h : hasColon s = false) :
    afterLastColon s = s := by
  induction s with
  | nil => rfl
  | cons c rest ih =>
    simp only [hasColon, Bool.or_eq_false_iff] at h
    obtain ⟨hc, hr⟩ := h
    have hc' : ¬ c = ':' := by
      intro hcc; rw [hcc] at hc; simp at hc
    simp only [afterLastColon, hr, if_neg hc']
    simp

/-- The last field of the colon split equals the substring after the last
colon (or the whole string when no colon occurs). -/
lemma lastD_splitColon (s : List Char) :
    lastD (splitColon s) = afterLastColon s := by
  induction s with
  | nil => rfl
  | cons c rest ih =>
    by_cases hc : c = ':'
    · simp only [splitColon, if_pos hc, afterLastColon]
      rw [lastD_cons_of_ne_nil _ _ (splitColon_ne_nil rest), ih]
      cases hr : hasColon rest with
      | true => simp
      | false =>
        simp only [Bool.false_eq_true, if_false, if_pos hc]
        exact afterLastColon_no_colon rest hr
    · cases hr : hasColon rest with
      | false =>
        rw [splitColon_no_colon (c :: rest) (by simp [hasColon, hr]; intro hcc; exact hc hcc)]
        simp only [afterLastColon, hr, Bool.false_eq_true, if_false, if_neg hc]
        rfl
      | true =>
        simp only [splitColon, afterLastColon, hr, if_neg hc, if_true]
        cases hsp : splitColon rest with
        | nil => exact absurd hsp (splitColon_ne_nil rest)
        | cons a t =>
          have hlen := splitColon_colon_len rest hr
          rw [hsp] at hlen
          cases t with
          | nil => simp at hlen
          | cons b u =>
            rw [← ih, hsp]
            rfl

/-! ## The recovery workflow `removeEmptyTables` (fix.go lines 53-137)

The storage engine (`badger.Open`, `db.Close`) and the filesystem calls of
the workflow body (`os.OpenFile`, `f.Stat`, `f.Read`, `CreateIfNotExists`,
`CopyDirectory`) are external effects; the embedding passes their outcomes
in as oracles (`WIn`) and records every call the workflow makes in an event
trace, in program order.  `badger.Open` outcomes are indexed by call number:
call 0 is the probe open (options built at lines 54-61), calls 1 and 2 are
the two opens made after `DeleteCorruptedTablesFromManifest` is set at line
123.  `f.Read` outcomes are a list of (bytes read, error) pairs consumed in
order; the loop at lines 88-99 stops at the first read that returns an
error, without distinguishing EOF from a genuine failure. -/

/-- Mutable command-line state `fof` (fix.go lines 34-37): the backup
directory and the force flag. -/
structure Fof where
  backupDir : List Char
  forceNotEmpty : Bool
deriving DecidableEq

/-- Oracle outcomes for the external calls made by one run of the
workflow.  `none` means the call succeeds; `some e` means it fails with
error text `e`. -/
structure WIn where
  opens : Nat → Option (List Char)
  fileOpenErr : Option (List Char)
  statErr : Option (List Char)
  reads : List (List Nat × Option (List Char))
  mkDirErr : Option (List Char)
  copyDirErr : Option (List Char)
  storeDir : List Char
  now : Nat

/-- Events recorded by the workflow, in program order. -/
inductive Ev where
  | openDB (destructive ok : Bool)
  | closeDB
  | printed (msg : List Char)
  | openFile (path : List Char) (ok : Bool)
  | statFile (ok : Bool)
  | closeFile
  | mkBackupDir (dir : List Char) (ok : Bool)
  | copyDirCall (src dst : List Char) (ok : Bool)
deriving DecidableEq

/-- Result of one workflow run: the final `fof` state, the value returned
by `removeEmptyTables` (`none` for a nil return, `some e` for error `e`),
and the event trace. -/
structure WOut where
  fof : Fof
  result : Option (List Char)
  trace : List Ev
deriving DecidableEq

/-- The `allZeros` computation of the read loop at fix.go lines 86-99:
process read outcomes in order; a read returning an error stops the loop
at once (before the returned bytes are scanned); otherwise every returned
byte is checked against zero.  `allZeros` never returns to `true` once a
non-zero byte is seen. -/
def allZerosOf : List (List Nat × Option (List Char)) → Bool
  | [] => true
  | (_, some _) :: _ => true
  | (bs, none) :: rest => bs.all (fun b => b = 0) && allZerosOf rest

def checksumMarker : List Char := ("checksum").data

def healthyMsg : List Char := ("Database is healthy").data

def unsupportedMsg (e : List Char) : List Char :=
  ("unsupported error: ").data ++ e

def openTableMsg (path e : List Char) : List Char :=
  ("unable to open table file ").data ++ path ++ (": ").data ++ e

def statTableMsg (path e : List Char) : List Char :=
  ("unable to stat table file ").data ++ path ++ (": ").data ++ e

def advisoryMsg : List Char :=
  ("Table is not empty. Use --force-not-empty to delete it").data

def corruptedMsg : List Char :=
  ("Database is corrupted. Trying to fix it").data

/-- Generated backup directory name (fix.go line 110):
`fmt.Sprintf` of the store directory, a fixed suffix and the Unix time. -/
def genBackupName (dir : List Char) (now : Nat) : List Char :=
  dir ++ ("_corrupted_backup_").data ++ (Nat.repr now).data

def creatingMsg (src dst : List Char) : List Char :=
  ("Creating backup from ").data ++ src ++ (" to ").data ++ dst

def mkBackupMsg (dir e : List Char) : List Char :=
  ("unable to create backup dir ").data ++ dir ++ (": ").data ++ e

def backupFailMsg (e : List Char) : List Char :=
  ("unable to backup database: ").data ++ e

def fixedBeforeMsg : List Char :=
  ("problem appear: db fixed before restart").data

def fixFailMsg (e : List Char) : List Char :=
  ("unable to open database after fix attempt ").data ++ e

def fixedMsg : List Char := ("Database is fixed").data

/-- The `fof` state after the backup-directory defaulting step (fix.go
lines 109-111): when the caller supplied no backup directory, the global
`fof.backupDir` field is overwritten with the generated name. -/
def fofAfterBackupName (fof : Fof) (w : WIn) : Fof :=
  if fof.backupDir.length = 0 then
    { fof with backupDir := genBackupName w.storeDir w.now }
  else fof

/-- Shallow embedding of `removeEmptyTables` (fix.go lines 53-137),
transcribed branch for branch.  Note three source facts the embedding
preserves: the advisory return at lines 100-103 happens before the
`f.Close()` at line 105, so the inspection handle stays open there; the
global `fof.backupDir` is overwritten at line 110 when it is empty; and
the successful open at line 130 is never followed by a `db.Close()`. -/
def removeEmptyTables (fof : Fof) (w : WIn) : WOut :=
  match w.opens 0 with
  | none =>
      { fof := fof, result := none,
        trace := [Ev.openDB false true, Ev.closeDB, Ev.printed healthyMsg] }
  | some e0 =>
    if containsSub e0 checksumMarker = false then
      { fof := fof, result := some (unsupportedMsg e0),
        trace := [Ev.openDB false false] }
    else
      let path := extractPath e0
      match w.fileOpenErr with
      | some fe =>
          { fof := fof, result := some (openTableMsg path fe),
            trace := [Ev.openDB false false, Ev.openFile path false] }
      | none =>
        match w.statErr with
        | some se =>
            { fof := fof, result := some (statTableMsg path se),
              trace := [Ev.openDB false false, Ev.openFile path true,
                        Ev.statFile false] }
        | none =>
          let allZeros := allZerosOf w.reads
          let t0 := [Ev.openDB false false, Ev.openFile path true,
                     Ev.statFile true]
          if !allZeros && !fof.forceNotEmpty then
            { fof := fof, result := none,
              trace := t0 ++ [Ev.printed advisoryMsg] }
          else
            let t1 := t0 ++ [Ev.closeFile, Ev.printed corruptedMsg]
            let fof1 := fofAfterBackupName fof w
            let t2 := t1 ++ [Ev.printed (creatingMsg w.storeDir fof1.backupDir)]
            match w.mkDirErr with
            | some me =>
                { fof := fof1, result := some (mkBackupMsg fof1.backupDir me),
                  trace := t2 ++ [Ev.mkBackupDir fof1.backupDir false] }
            | none =>
              let t3 := t2 ++ [Ev.mkBackupDir fof1.backupDir true]
              match w.copyDirErr with
              | some ce =>
                  { fof := fof1, result := some (backupFailMsg ce),
                    trace := t3 ++ [Ev.copyDirCall w.storeDir fof1.backupDir false] }
              | none =>
                let t4 := t3 ++ [Ev.copyDirCall w.storeDir fof1.backupDir true]
                match w.opens 1 with
                | none =>
                    { fof := fof1, result := some fixedBeforeMsg,
                      trace := t4 ++ [Ev.openDB true true, Ev.closeDB] }
                | some _ =>
                  let t5 := t4 ++ [Ev.openDB true false]
                  match w.opens 2 with
                  | some e2 =>
                      { fof := fof1, result := some (fixFailMsg e2),
                        trace := t5 ++ [Ev.openDB true false] }
                  | none =>
                      { fof := fof1, result := none,
                        trace := t5 ++ [Ev.openDB true true, Ev.printed fixedMsg] }

/-! ## Filesystem model and the directory copy (fix.go lines 139-244)

Paths are absolute component lists; a filesystem is an association list
from paths to nodes.  Symbolic-link targets are modelled as absolute
paths, and links are resolved only at the final path component (no claim
here depends on a symbolic link appearing as an intermediate component of
a path).  `resolveFS` models `os.Stat` (which follows symbolic links);
`lookupFS` models `os.Lstat` and `DirEntry.Info` (which do not). -/

abbrev Path := List String

/-- Filesystem node: regular file with content bytes, directory, or
symbolic link.  Every node carries POSIX mode/uid/gid as the copy code
reads and writes them (mode is not stored for links, whose permission
bits the source never propagates). -/
inductive FNode where
  | file (content : List Nat) (mode uid gid : Nat)
  | dir (mode uid gid : Nat)
  | symlink (target : Path) (uid gid : Nat)
deriving DecidableEq

abbrev FS := List (Path × FNode)

def lookupFS (fs : FS) (p : Path) : Option FNode :=
  match fs with
  | [] => none
  | (q, n) :: rest => if q = p then some n else lookupFS rest p

/-- Update the node at `p`, or append a new entry when `p` is absent. -/
def setFS (fs : FS) (p : Path) (n : FNode) : FS :=
  match fs with
  | [] => [(p, n)]
  | (q, m) :: rest => if q = p then (p, n) :: rest else (q, m) :: setFS rest p n

/-- Resolution of a path to a non-link node, following symbolic links at
the final component, with fuel against link cycles: this is `os.Stat`.
`none` models a stat error (missing path or dangling/cyclic link). -/
def resolveFS (fuel : Nat) (fs : FS) (p : Path) : Option (Path × FNode) :=
  match fuel with
  | 0 => none
  | fuel + 1 =>
    match lookupFS fs p with
    | none => none
    | some (FNode.symlink t _ _) => resolveFS fuel fs t
    | some n => some (p, n)

def setOwner : FNode → Nat → Nat → FNode
  | FNode.file c m _ _, u, g => FNode.file c m u g
  | FNode.dir m _ _, u, g => FNode.dir m u g
  | FNode.symlink t _ _, u, g => FNode.symlink t u g

def setMode : FNode → Nat → FNode
  | FNode.file c _ u g, m => FNode.file c m u g
  | FNode.dir _ u g, m => FNode.dir m u g
  | FNode.symlink t u g, _ => FNode.symlink t u g

/-- The uid/gid pair of a node, as `syscall.Stat_t` exposes it. -/
def ownerOf : FNode → Nat × Nat
  | FNode.file _ _ u g => (u, g)
  | FNode.dir _ u g => (u, g)
  | FNode.symlink _ u g => (u, g)

/-- Permission mode of a node (0 for links, never used on them). -/
def modeOf : FNode → Nat
  | FNode.file _ m _ _ => m
  | FNode.dir m _ _ => m
  | FNode.symlink _ _ _ => 0

/-- Name of `q` as a direct child of directory path `p`. -/
def childName : Path → Path → Option String
  | [], [n] => some n
  | a :: as, b :: bs => if a = b then childName as bs else none
  | _, _ => none

def childNames (fs : FS) (p : Path) : List String :=
  fs.filterMap (fun e => childName p e.1)

/-- Lexicographic comparison of names (helper for the sorted directory
listing `os.ReadDir` produces). -/
def strLeB : List Char → List Char → Bool
  | [], _ => true
  | _ :: _, [] => false
  | x :: xs, y :: ys => if x = y then strLeB xs ys else decide (x < y)

def insertName (n : String) : List String → List String
  | [] => [n]
  | m :: ms => if strLeB n.data m.data then n :: m :: ms else m :: insertName n ms

def sortNames : List String → List String
  | [] => []
  | n :: ns => insertName n (sortNames ns)

/-- Model of `os.ReadDir`: resolve the directory path, then list its
child names sorted by filename. -/
def readDir (fuel : Nat) (fs : FS) (p : Path) : Option (List String) :=
  match resolveFS fuel fs p with
  | some (q, FNode.dir _ _ _) => some (sortNames (childNames fs q))
  | _ => none

/-- Embedding of `Exists` (fix.go lines 218-224): an `os.Stat` probe, so
a dangling symbolic link counts as absent. -/
def fileExists (fuel : Nat) (fs : FS) (p : Path) : Bool :=
  (resolveFS fuel fs p).isSome

/-- Embedding of `CreateIfNotExists` (fix.go lines 226-236).  `MkdirAll`
intermediate-directory creation is not modelled: every use in the source
creates a directory whose parent already exists. -/
def CreateIfNotExists (fuel : Nat) (fs : FS) (dir : Path) (perm : Nat) :
    Except String FS :=
  if fileExists fuel fs dir then Except.ok fs
  else Except.ok (setFS fs dir (FNode.dir perm 0 0))

/-- Embedding of `Copy` (fix.go lines 195-216): `os.Create` makes (or
truncates) the destination regular file with mode 0666, then `os.Open`
opens the source following symbolic links and `io.Copy` streams its
bytes across. -/
def Copy (fuel : Nat) (fs : FS) (srcFile dstFile : Path) : Except String FS :=
  match lookupFS fs dstFile with
  | some (FNode.dir _ _ _) => Except.error ("destination is a directory")
  | _ =>
    let fs1 := setFS fs dstFile (FNode.file [] 0o666 0 0)
    match resolveFS fuel fs1 srcFile with
    | some (_, FNode.file content _ _ _) =>
        Except.ok (setFS fs1 dstFile (FNode.file content 0o666 0 0))
    | some _ => Except.error ("source is not a regular file")
    | none => Except.error ("cannot open source file")

/-- Embedding of `CopySymLink` (fix.go lines 238-244): `os.Readlink`
reads the link target without following it, `os.Symlink` creates the
destination link (failing if the destination already exists). -/
def CopySymLink (fs : FS) (source dest : Path) : Except String FS :=
  match lookupFS fs source with
  | some (FNode.symlink t _ _) =>
      match lookupFS fs dest with
      | some _ => Except.error ("destination exists")
      | none => Except.ok (setFS fs dest (FNode.symlink t 0 0))
  | _ => Except.error ("source is not a symlink")

/-- Model of `os.Lchown`: set ownership of the node at `p` itself,
without following a symbolic link. -/
def Lchown (fs : FS) (p : Path) (uid gid : Nat) : Except String FS :=
  match lookupFS fs p with
  | none => Except.error ("lchown: no such file or directory")
  | some n => Except.ok (setFS fs p (setOwner n uid gid))

/-- Model of `os.Chmod`: follows symbolic links, then sets the
permission bits of the resolved node. -/
def Chmod (fuel : Nat) (fs : FS) (p : Path) (m : Nat) : Except String FS :=
  match resolveFS fuel fs p with
  | none => Except.error ("chmod: no such file or directory")
  | some (q, n) => Except.ok (setFS fs q (setMode n m))

/-- Body of the `for _, entry := range entries` loop of `CopyDirectory`
(fix.go lines 144-191), processing the listed names in order and
threading the filesystem; `copyDir` is the recursive clone applied to
sub-directories.  Each entry is dispatched on the type reported by
`os.Stat` at line 148 — which follows symbolic links — so the
`ModeSymlink` arm can never be taken: it is preserved here, dead,
exactly as it is dead in the source. -/
def copyEntryList (copyDir : FS → Path → Path → Except String FS)
    (fuel : Nat) (scrDir dest : Path) :
    FS → List String → Except String FS
  | fs, [] => Except.ok fs
  | fs, name :: rest =>
    let sourcePath := scrDir ++ [name]
    let destPath := dest ++ [name]
    -- fileInfo, err := os.Stat(sourcePath): follows symbolic links, so
    -- for a link entry the node (and its type, mode, uid, gid) below
    -- describe the link target, and a dangling link is a stat error.
    match resolveFS fuel fs sourcePath with
    | none => Except.error ("cannot stat source entry")
    | some (_, node) =>
      -- switch fileInfo.Mode() & os.ModeType
      let copied : Except String FS :=
        match node with
        | FNode.dir _ _ _ =>
          match CreateIfNotExists fuel fs destPath 0o755 with
          | Except.error e => Except.error e
          | Except.ok fs1 => copyDir fs1 sourcePath destPath
        | FNode.symlink _ _ _ =>
          -- dead arm: resolveFS (like os.Stat) never reports a symlink
          CopySymLink fs sourcePath destPath
        | FNode.file _ _ _ _ => Copy fuel fs sourcePath destPath
      match copied with
      | Except.error e => Except.error e
      | Except.ok fs2 =>
        -- os.Lchown(destPath, stat.Uid, stat.Gid): ownership comes from
        -- the os.Stat result, hence from the resolved target node.
        match Lchown fs2 destPath (ownerOf node).1 (ownerOf node).2 with
        | Except.error e => Except.error e
        | Except.ok fs3 =>
          -- fInfo, err := entry.Info(): does not follow symbolic links.
          match lookupFS fs3 sourcePath with
          | none => Except.error ("cannot stat directory entry")
          | some fInfo =>
            match fInfo with
            | FNode.symlink _ _ _ =>
                copyEntryList copyDir fuel scrDir dest fs3 rest
            | _ =>
              match Chmod fuel fs3 destPath (modeOf fInfo) with
              | Except.error e => Except.error e
              | Except.ok fs4 =>
                  copyEntryList copyDir fuel scrDir dest fs4 rest

/-- Shallow embedding of `CopyDirectory` (fix.go lines 139-193), with
fuel bounding the recursion depth (the Go recursion is unbounded; every
theorem below instantiates enough fuel). -/
def CopyDirectory : Nat → FS → Path → Path → Except String FS
  | 0, _, _, _ => Except.error ("recursion limit")
  | fuel + 1, fs, scrDir, dest =>
    match readDir fuel fs scrDir with
    | none => Except.error ("cannot read source directory")
    | some names =>
        copyEntryList (CopyDirectory fuel) fuel scrDir dest fs names

/-- Node found at path `p` after a copy, `none` when the copy failed. -/
def copyResultAt (r : Except String FS) (p : Path) : Option FNode :=
  match r with
  | Except.ok fs2 => lookupFS fs2 p
  | Except.error _ => none

/-- Source tree for the symbolic-link test: directory `src` holding a
regular file `a.txt` (bytes 1,2,3 and mode 0644) and a symbolic link
`link` whose target is `src/a.txt`; the destination `dst` is an empty
directory. -/
def fsC1 : FS :=
  [ (["src"], FNode.dir 0o755 1000 1000),
    (["src", "a.txt"], FNode.file [1, 2, 3] 0o644 1000 1000),
    (["src", "link"], FNode.symlink ["src", "a.txt"] 1000 1000),
    (["dst"], FNode.dir 0o755 0 0) ]

/-- Trace scanner for the backup-before-repair ordering: scans the trace
left to right and checks that every destructive `badger.Open` call is
preceded by an earlier successful `CopyDirectory` call.  The Boolean
argument records whether such a call has been seen yet. -/
def backupBeforeDestructive : List Ev → Bool → Bool
  | [], _ => true
  | Ev.copyDirCall _ _ true :: rest, _ => backupBeforeDestructive rest true
  | Ev.openDB true _ :: rest, seen => seen && backupBeforeDestructive rest seen
  | _ :: rest, seen => backupBeforeDestructive rest seen

/-- Number of destructive (`DeleteCorruptedTablesFromManifest`) open
attempts in a trace. -/
def destrOpenCount (t : List Ev) : Nat :=
  t.countP (fun e => match e with | Ev.openDB true _ => true | _ => false)

/-- Number of successful `badger.Open` calls (handles acquired). -/
def acquiredCount (t : List Ev) : Nat :=
  t.countP (fun e => match e with | Ev.openDB _ true => true | _ => false)

/-- Number of `db.Close()` calls in a trace. -/
def closedCount (t : List Ev) : Nat :=
  t.countP (fun e => match e with | Ev.closeDB => true | _ => false)

/-! Branch-shape lemmas: one per terminal branch of `removeEmptyTables`,
each giving the full output of the run under the oracle outcomes that
select the branch.  The claim theorems below are assembled from these. -/

lemma run_healthy_eq (fof : Fof) (w : WIn) (h0 : w.opens 0 = none) :
    removeEmptyTables fof w =
      { fof := fof, result := none,
        trace := [Ev.openDB false true, Ev.closeDB, Ev.printed healthyMsg] } := by
  unfold removeEmptyTables
  rw [h0]

lemma run_unsupported_eq (fof : Fof) (w : WIn) (e0 : List Char)
    (h0 : w.opens 0 = some e0)
    (hc : containsSub e0 checksumMarker = false) :
    removeEmptyTables fof w =
      { fof := fof, result := some (unsupportedMsg e0),
        trace := [Ev.openDB false false] } := by
  unfold removeEmptyTables
  rw [h0]
  simp [hc]

lemma run_fileOpenErr_eq (fof : Fof) (w : WIn) (e0 fe : List Char)
    (h0 : w.opens 0 = some e0)
    (hc : containsSub e0 checksumMarker = true)
    (hf : w.fileOpenErr = some fe) :
    removeEmptyTables fof w =
      { fof := fof, result := some (openTableMsg (extractPath e0) fe),
        trace := [Ev.openDB false false,
                  Ev.openFile (extractPath e0) false] } := by
  unfold removeEmptyTables
  rw [h0, hf]
  simp [hc]

lemma run_statErr_eq (fof : Fof) (w : WIn) (e0 se : List Char)
    (h0 : w.opens 0 = some e0)
    (hc : containsSub e0 checksumMarker = true)
    (hf : w.fileOpenErr = none)
    (hs : w.statErr = some se) :
    removeEmptyTables fof w =
      { fof := fof, result := some (statTableMsg (extractPath e0) se),
        trace := [Ev.openDB false false, Ev.openFile (extractPath e0) true,
                  Ev.statFile false] } := by
  unfold removeEmptyTables
  rw [h0, hf, hs]
  simp [hc]

lemma run_advisory_eq (fof : Fof) (w : WIn) (e0 : List Char)
    (h0 : w.opens 0 = some e0)
    (hc : containsSub e0 checksumMarker = true)
    (hf : w.fileOpenErr = none)
    (hs : w.statErr = none)
    (hz : allZerosOf w.reads = false)
    (hforce : fof.forceNotEmpty = false) :
    removeEmptyTables fof w =
      { fof := fof, result := none,
        trace := [Ev.openDB false false, Ev.openFile (extractPath e0) true,
                  Ev.statFile true, Ev.printed advisoryMsg] } := by
  unfold removeEmptyTables
  rw [h0, hf, hs]
  simp [hc, hz, hforce]

lemma run_mkDirErr_eq (fof : Fof) (w : WIn) (e0 me : List Char)
    (h0 : w.opens 0 = some e0)
    (hc : containsSub e0 checksumMarker = true)
    (hf : w.fileOpenErr = none)
    (hs : w.statErr = none)
    (hz : (!allZerosOf w.reads && !fof.forceNotEmpty) = false)
    (hm : w.mkDirErr = some me) :
    removeEmptyTables fof w =
      { fof := fofAfterBackupName fof w,
        result := some (mkBackupMsg (fofAfterBackupName fof w).backupDir me),
        trace := [Ev.openDB false false, Ev.openFile (extractPath e0) true,
                  Ev.statFile true, Ev.closeFile, Ev.printed corruptedMsg,
                  Ev.printed (creatingMsg w.storeDir
                    (fofAfterBackupName fof w).backupDir),
                  Ev.mkBackupDir (fofAfterBackupName fof w).backupDir false] } := by
  unfold removeEmptyTables
  rw [h0, hf, hs, hm]
  simp [hc, hz]

lemma run_copyErr_eq (fof : Fof) (w : WIn) (e0 ce : List Char)
    (h0 : w.opens 0 = some e0)
    (hc : containsSub e0 checksumMarker = true)
    (hf : w.fileOpenErr = none)
    (hs : w.statErr = none)
    (hz : (!allZerosOf w.reads && !fof.forceNotEmpty) = false)
    (hm : w.mkDirErr = none)
    (hcp : w.copyDirErr = some ce) :
    removeEmptyTables fof w =
      { fof := fofAfterBackupName fof w,
        result := some (backupFailMsg ce),
        trace := [Ev.openDB false false, Ev.openFile (extractPath e0) true,
                  Ev.statFile true, Ev.closeFile, Ev.printed corruptedMsg,
                  Ev.printed (creatingMsg w.storeDir
                    (fofAfterBackupName fof w).backupDir),
                  Ev.mkBackupDir (fofAfterBackupName fof w).backupDir true,
                  Ev.copyDirCall w.storeDir
                    (fofAfterBackupName fof w).backupDir false] } := by
  unfold removeEmptyTables
  rw [h0, hf, hs, hm, hcp]
  simp [hc, hz]

lemma run_fixedBefore_eq (fof : Fof) (w : WIn) (e0 : List Char)
    (h0 : w.opens 0 = some e0)
    (hc : containsSub e0 checksumMarker = true)
    (hf : w.fileOpenErr = none)
    (hs : w.statErr = none)
    (hz : (!allZerosOf w.reads && !fof.forceNotEmpty) = false)
    (hm : w.mkDirErr = none)
    (hcp : w.copyDirErr = none)
    (h1 : w.opens 1 = none) :
    removeEmptyTables fof w =
      { fof := fofAfterBackupName fof w,
        result := some fixedBeforeMsg,
        trace := [Ev.openDB false false, Ev.openFile (extractPath e0) true,
                  Ev.statFile true, Ev.closeFile, Ev.printed corruptedMsg,
                  Ev.printed (creatingMsg w.storeDir
                    (fofAfterBackupName fof w).backupDir),
                  Ev.mkBackupDir (fofAfterBackupName fof w).backupDir true,
                  Ev.copyDirCall w.storeDir
                    (fofAfterBackupName fof w).backupDir true,
                  Ev.openDB true true, Ev.closeDB] } := by
  unfold removeEmptyTables
  rw [h0, hf, hs, hm, hcp, h1]
  simp [hc, hz]

lemma run_fixFail_eq (fof : Fof) (w : WIn) (e0 e1 e2 : List Char)
    (h0 : w.opens 0 = some e0)
    (hc : containsSub e0 checksumMarker = true)
    (hf : w.fileOpenErr = none)
    (hs : w.statErr = none)
    (hz : (!allZerosOf w.reads && !fof.forceNotEmpty) = false)
    (hm : w.mkDirErr = none)
    (hcp : w.copyDirErr = none)
    (h1 : w.opens 1 = some e1)
    (h2 : w.opens 2 = some e2) :
    removeEmptyTables fof w =
      { fof := fofAfterBackupName fof w,
        result := some (fixFailMsg e2),
        trace := [Ev.openDB false false, Ev.openFile (extractPath e0) true,
                  Ev.statFile true, Ev.closeFile, Ev.printed corruptedMsg,
                  Ev.printed (creatingMsg w.storeDir
                    (fofAfterBackupName fof w).backupDir),
                  Ev.mkBackupDir (fofAfterBackupName fof w).backupDir true,
                  Ev.copyDirCall w.storeDir
                    (fofAfterBackupName fof w).backupDir true,
                  Ev.openDB true false, Ev.openDB true false] } := by
  unfold removeEmptyTables
  rw [h0, hf, hs, hm, hcp, h1, h2]
  simp [hc, hz]

lemma run_fixed_eq (fof : Fof) (w : WIn) (e0 e1 : List Char)
    (h0 : w.opens 0 = some e0)
    (hc : containsSub e0 checksumMarker = true)
    (hf : w.fileOpenErr = none)
    (hs : w.statErr = none)
    (hz : (!allZerosOf w.reads && !fof.forceNotEmpty) = false)
    (hm : w.mkDirErr = none)
    (hcp : w.copyDirErr = none)
    (h1 : w.opens 1 = some e1)
    (h2 : w.opens 2 = none) :
    removeEmptyTables fof w =
      { fof := fofAfterBackupName fof w,
        result := none,
        trace := [Ev.openDB false false, Ev.openFile (extractPath e0) true,
                  Ev.statFile true, Ev.closeFile, Ev.printed corruptedMsg,
                  Ev.printed (creatingMsg w.storeDir
                    (fofAfterBackupName fof w).backupDir),
                  Ev.mkBackupDir (fofAfterBackupName fof w).backupDir true,
                  Ev.copyDirCall w.storeDir
                    (fofAfterBackupName fof w).backupDir true,
                  Ev.openDB true false, Ev.openDB true true,
                  Ev.printed fixedMsg] } := by
  unfold removeEmptyTables
  rw [h0, hf, hs, hm, hcp, h1, h2]
  simp [hc, hz]

/-- C1: the claim says every symbolic-link entry is recreated at the
destination as an equivalent symbolic link whose target content is never
followed and copied.  The code dispatches entries on `os.Stat`, which
follows symbolic links, so the `ModeSymlink`/`CopySymLink` branch is
unreachable and a link entry pointing at a regular file is copied as a
regular file holding the target content: on `fsC1`, where `src/link` is
a symbolic link to `src/a.txt`, the clone puts at `dst/link` a regular
file with the target bytes 1,2,3 (and mode 0666 from `os.Create`, since
the `Chmod` is skipped for link entries), not a symbolic link. -/
theorem C1_symlink_followed_and_copied :
    lookupFS fsC1 ["src", "link"] =
      some (FNode.symlink ["src", "a.txt"] 1000 1000) ∧
    copyResultAt (CopyDirectory 10 fsC1 ["src"] ["dst"]) ["dst", "link"] =
      some (FNode.file [1, 2, 3] 0o666 1000 1000) := by
  constructor
  · rfl
  · rfl

/-- C7: for every probe-open failure whose text does not contain the
checksum marker, the workflow returns the wrapped error (containing the
engine error text verbatim), leaves `fof` unchanged, and its trace holds
nothing but the failed probe open: no file is touched, no backup is made,
and no destructive open is attempted. -/
theorem C7_unsupported_terminal (fof : Fof) (w : WIn) (e0 : List Char)
    (h0 : w.opens 0 = some e0)
    (hc : containsSub e0 checksumMarker = false) :
    removeEmptyTables fof w =
      { fof := fof, result := some (unsupportedMsg e0),
        trace := [Ev.openDB false false] } :=
  run_unsupported_eq fof w e0 h0 hc

/-- Witness for C7 at a concrete non-corruption open error. -/
theorem C7_unsupported_terminal_witness :
    removeEmptyTables ⟨[], false⟩
      { opens := fun _ => some (("permission denied").data),
        fileOpenErr := none, statErr := none, reads := [],
        mkDirErr := none, copyDirErr := none,
        storeDir := ("db").data, now := 0 } =
      { fof := ⟨[], false⟩,
        result := some (unsupportedMsg (("permission denied").data)),
        trace := [Ev.openDB false false] } :=
  C7_unsupported_terminal _ _ _ rfl (by decide)

/-- C6: for every open-error text classified as corruption (it contains
the checksum marker), the extracted offending path — split on colons,
last field, trimmed — equals the whitespace-trimmed substring after the
last colon of the text (the whole trimmed text when there is no colon). -/
theorem C6_path_extraction (s : List Char)
    (_h : containsSub s checksumMarker = true) :
    extractPath s = trimSpaceL (afterLastColon s) := by
  unfold extractPath
  rw [lastD_splitColon]

/-- Witness for C6 on the specification's example error text. -/
theorem C6_path_extraction_witness :
    containsSub ("checksum mismatch: /data/000012.sst").data checksumMarker
      = true ∧
    extractPath ("checksum mismatch: /data/000012.sst").data =
      ("/data/000012.sst").data := by
  refine ⟨by decide, ?_⟩
  rw [C6_path_extraction (("checksum mismatch: /data/000012.sst").data)
    (by decide)]
  decide

/-- C2: in every run of the workflow, whatever the engine and filesystem
outcomes, a destructive open (the engine open with the
delete-corrupted-tables option) appears in the trace only after an
earlier successful `CopyDirectory` backup call; in particular every
error or advisory exit taken before the verified backup carries no
destructive open at all. -/
theorem C2_no_destructive_before_backup (fof : Fof) (w : WIn) :
    backupBeforeDestructive (removeEmptyTables fof w).trace false = true := by
  unfold removeEmptyTables
  cases h0 : w.opens 0 with
  | none => simp [backupBeforeDestructive]
  | some e0 =>
    by_cases hc : containsSub e0 checksumMarker = false
    · simp [hc, backupBeforeDestructive]
    · simp only [if_neg hc]
      cases hf : w.fileOpenErr with
      | some fe => simp [backupBeforeDestructive]
      | none =>
        cases hs : w.statErr with
        | some se => simp [backupBeforeDestructive]
        | none =>
          by_cases hz : (!allZerosOf w.reads && !fof.forceNotEmpty) = true
          · simp only [hz, if_true]
            simp [backupBeforeDestructive]
          · simp only [if_neg hz]
            cases hm : w.mkDirErr with
            | some me => simp [backupBeforeDestructive]
            | none =>
              cases hcp : w.copyDirErr with
              | some ce => simp [backupBeforeDestructive]
              | none =>
                cases h1 : w.opens 1 with
                | none => simp [backupBeforeDestructive]
                | some e1 =>
                  cases h2 : w.opens 2 with
                  | some e2 => simp [backupBeforeDestructive]
                  | none => simp [backupBeforeDestructive]

/-- C10: on the advisory exit path — the implicated file holds a
non-zero byte and the force flag is unset — the workflow returns nil
after printing the advisory as its last act, with the read-only
inspection handle still open (no `f.Close()` in the trace, which records
the `os.OpenFile` success); and in every run whatsoever, a `f.Close()`
appears in the trace only on the path that proceeds to backup and repair
(the one that prints the corruption message). -/
theorem C10_advisory_handle_left_open (fof : Fof) (w : WIn) :
    (∀ e0, w.opens 0 = some e0 → containsSub e0 checksumMarker = true →
      w.fileOpenErr = none → w.statErr = none →
      allZerosOf w.reads = false → fof.forceNotEmpty = false →
      (removeEmptyTables fof w).result = none ∧
      Ev.openFile (extractPath e0) true ∈ (removeEmptyTables fof w).trace ∧
      Ev.closeFile ∉ (removeEmptyTables fof w).trace ∧
      (removeEmptyTables fof w).trace.getLast? =
        some (Ev.printed advisoryMsg)) ∧
    (Ev.closeFile ∈ (removeEmptyTables fof w).trace →
      Ev.printed corruptedMsg ∈ (removeEmptyTables fof w).trace) := by
  constructor
  · intro e0 h0 hc hf hs hz hforce
    rw [run_advisory_eq fof w e0 h0 hc hf hs hz hforce]
    refine ⟨rfl, by simp, by simp, rfl⟩
  · unfold removeEmptyTables
    cases h0 : w.opens 0 with
    | none => simp
    | some e0 =>
      by_cases hc : containsSub e0 checksumMarker = false
      · simp [hc]
      · simp only [if_neg hc]
        cases hf : w.fileOpenErr with
        | some fe => simp
        | none =>
          cases hs : w.statErr with
          | some se => simp
          | none =>
            by_cases hz : (!allZerosOf w.reads && !fof.forceNotEmpty) = true
            · simp only [hz, if_true]
              simp
            · simp only [if_neg hz]
              cases hm : w.mkDirErr with
              | some me => simp
              | none =>
                cases hcp : w.copyDirErr with
                | some ce => simp
                | none =>
                  cases h1 : w.opens 1 with
                  | none => simp
                  | some e1 =>
                    cases h2 : w.opens 2 with
                    | some e2 => simp
                    | none => simp

/-- Concrete advisory-path run for the C10 witness: corruption error
with path, a non-zero byte in the implicated file, no force flag. -/
def fofC10w : Fof := ⟨("bk").data, false⟩

def wC10w : WIn :=
  { opens := fun n =>
      if n = 0 then some (("checksum: /db/t1.sst").data) else none,
    fileOpenErr := none, statErr := none,
    reads := [([1, 0], none), ([], some (("EOF").data))],
    mkDirErr := none, copyDirErr := none,
    storeDir := ("db").data, now := 7 }

/-- Witness for C10 on a concrete advisory-path run. -/
theorem C10_advisory_handle_left_open_witness :
    (removeEmptyTables fofC10w wC10w).result = none ∧
    Ev.closeFile ∉ (removeEmptyTables fofC10w wC10w).trace := by
  have h := (C10_advisory_handle_left_open fofC10w wC10w).1
    (("checksum: /db/t1.sst").data) rfl (by decide) rfl rfl (by decide) rfl
  exact ⟨h.1, h.2.2.1⟩

/-- Inputs showing the C3 condition is a conjunction, not a disjunction:
the implicated file is all zeros and the caller did not pass the force
flag, yet the workflow proceeds. -/
def fofC3 : Fof := ⟨("bk").data, false⟩

def wC3 : WIn :=
  { opens := fun n =>
      if n = 0 then some (("checksum: /db/t1.sst").data)
      else if n = 1 then some (("still corrupted").data)
      else none,
    fileOpenErr := none, statErr := none,
    reads := [([0, 0], none), ([], some (("EOF").data))],
    mkDirErr := none, copyDirErr := none,
    storeDir := ("db").data, now := 7 }

/-- Counterexample to C3 as stated: the claim reads "if any non-zero
byte is found, OR the caller did not pass the force-override flag, the
workflow aborts with the advisory and does not proceed to backup".  Here
the force flag is not passed (so the disjunction holds), the file is all
zeros, and the run does not print the advisory, proceeds to backup, and
performs the repair: the code's guard is `!allZeros && !force`, a
conjunction. -/
theorem C3_counterexample :
    fofC3.forceNotEmpty = false ∧
    Ev.printed advisoryMsg ∉ (removeEmptyTables fofC3 wC3).trace ∧
    Ev.copyDirCall (("db").data) (("bk").data) true ∈
      (removeEmptyTables fofC3 wC3).trace ∧
    (removeEmptyTables fofC3 wC3).result = none := by
  refine ⟨rfl, ?_, ?_, ?_⟩ <;> decide

/-- C3 amended: if a non-zero byte is found in the implicated file AND
the caller did not pass the force-override flag, the workflow aborts
with the non-fatal advisory (nil return, advisory printed) and does not
proceed to backup or repair: no backup-directory creation, no
CopyDirectory call and no destructive open appear in the trace. -/
theorem C3_amended_abort_condition (fof : Fof) (w : WIn) (e0 : List Char)
    (h0 : w.opens 0 = some e0)
    (hc : containsSub e0 checksumMarker = true)
    (hf : w.fileOpenErr = none)
    (hs : w.statErr = none)
    (hz : allZerosOf w.reads = false)
    (hforce : fof.forceNotEmpty = false) :
    (removeEmptyTables fof w).result = none ∧
    Ev.printed advisoryMsg ∈ (removeEmptyTables fof w).trace ∧
    (∀ d b, Ev.mkBackupDir d b ∉ (removeEmptyTables fof w).trace) ∧
    (∀ s d b, Ev.copyDirCall s d b ∉ (removeEmptyTables fof w).trace) ∧
    (∀ b, Ev.openDB true b ∉ (removeEmptyTables fof w).trace) := by
  rw [run_advisory_eq fof w e0 h0 hc hf hs hz hforce]
  refine ⟨rfl, by simp, ?_, ?_, ?_⟩
  · intro d b; simp
  · intro s d b; simp
  · intro b; simp

/-- Concrete advisory-path run for the C3 amended witness. -/
def fofC3w : Fof := ⟨("bk").data, false⟩

def wC3w : WIn :=
  { opens := fun n =>
      if n = 0 then some (("checksum: /db/t2.sst").data) else none,
    fileOpenErr := none, statErr := none,
    reads := [([7], none)],
    mkDirErr := none, copyDirErr := none,
    storeDir := ("db").data, now := 9 }

/-- Witness for the amended C3 on a concrete non-empty-file run. -/
theorem C3_amended_witness :
    (removeEmptyTables fofC3w wC3w).result = none ∧
    Ev.printed advisoryMsg ∈ (removeEmptyTables fofC3w wC3w).trace ∧
    (∀ b, Ev.openDB true b ∉ (removeEmptyTables fofC3w wC3w).trace) := by
  have h := C3_amended_abort_condition fofC3w wC3w
    (("checksum: /db/t2.sst").data) rfl (by decide) rfl rfl (by decide) rfl
  exact ⟨h.1, h.2.1, h.2.2.2.2⟩

lemma fofAfterBackupName_forceNotEmpty (fof : Fof) (w : WIn) :
    (fofAfterBackupName fof w).forceNotEmpty = fof.forceNotEmpty := by
  unfold fofAfterBackupName
  split <;> rfl

lemma fofAfterBackupName_backupDir_of_ne (fof : Fof) (w : WIn)
    (h : fof.backupDir ≠ []) :
    (fofAfterBackupName fof w).backupDir = fof.backupDir := by
  have h' : ¬ fof.backupDir.length = 0 := by
    simpa [List.length_eq_zero] using h
  unfold fofAfterBackupName
  rw [if_neg h']

/-- Concrete run reaching the terminal-success fixed path for the C4
counterexample. -/
def fofC4 : Fof := ⟨("bk").data, true⟩

def wC4 : WIn :=
  { opens := fun n =>
      if n = 0 then some (("checksum: /db/t1.sst").data)
      else if n = 1 then some (("still corrupted").data)
      else none,
    fileOpenErr := none, statErr := none,
    reads := [([0], none), ([], some (("EOF").data))],
    mkDirErr := none, copyDirErr := none,
    storeDir := ("db").data, now := 3 }

/-- Counterexample to C4 as stated: the claim says that on every exit
path on which a handle was acquired it is closed before return, in
particular on the terminal-success fixed path.  On this fixed-path run
exactly one open succeeds (the final destructive one) and the trace
holds no `db.Close()` at all, yet the function returns nil. -/
theorem C4_counterexample :
    acquiredCount (removeEmptyTables fofC4 wC4).trace = 1 ∧
    closedCount (removeEmptyTables fofC4 wC4).trace = 0 ∧
    (removeEmptyTables fofC4 wC4).result = none := by
  refine ⟨?_, ?_, ?_⟩ <;> decide

/-- C4 amended: every successfully acquired store handle is closed
before return except on the terminal-success fixed path, where the
handle from the final successful destructive open is not closed: in
every run, the number of successful opens equals the number of closes,
plus one exactly when the run returns nil with a successful destructive
open in its trace (the fixed path). -/
theorem C4_amended_handle_accounting (fof : Fof) (w : WIn) :
    acquiredCount (removeEmptyTables fof w).trace =
      closedCount (removeEmptyTables fof w).trace +
      (if (removeEmptyTables fof w).result = none ∧
          Ev.openDB true true ∈ (removeEmptyTables fof w).trace
       then 1 else 0) := by
  unfold removeEmptyTables
  cases h0 : w.opens 0 with
  | none => simp [acquiredCount, closedCount]
  | some e0 =>
    by_cases hc : containsSub e0 checksumMarker = false
    · simp [hc, acquiredCount, closedCount]
    · simp only [if_neg hc]
      cases hf : w.fileOpenErr with
      | some fe => simp [acquiredCount, closedCount]
      | none =>
        cases hs : w.statErr with
        | some se => simp [acquiredCount, closedCount]
        | none =>
          by_cases hz : (!allZerosOf w.reads && !fof.forceNotEmpty) = true
          · simp only [hz, if_true]
            simp [acquiredCount, closedCount]
          · simp only [if_neg hz]
            cases hm : w.mkDirErr with
            | some me => simp [acquiredCount, closedCount]
            | none =>
              cases hcp : w.copyDirErr with
              | some ce => simp [acquiredCount, closedCount]
              | none =>
                cases h1 : w.opens 1 with
                | none => simp [acquiredCount, closedCount]
                | some e1 =>
                  cases h2 : w.opens 2 with
                  | some e2 => simp [acquiredCount, closedCount]
                  | none => simp [acquiredCount, closedCount]

/-- Concrete run for the C5 counterexample: the backup succeeds and the
first destructive open succeeds. -/
def fofC5 : Fof := ⟨("bk").data, true⟩

def wC5 : WIn :=
  { opens := fun n =>
      if n = 0 then some (("checksum: /db/t1.sst").data) else none,
    fileOpenErr := none, statErr := none,
    reads := [([0], none), ([], some (("EOF").data))],
    mkDirErr := none, copyDirErr := none,
    storeDir := ("db").data, now := 3 }

/-- Counterexample to C5 as stated: the claim says that after a
successful backup the workflow performs the destructive open exactly
twice in sequence.  On this run the backup succeeds and the first
destructive open succeeds, whereupon the workflow closes the handle and
returns the fatal invariant-violation error after only ONE destructive
open. -/
theorem C5_counterexample :
    Ev.copyDirCall (("db").data) (("bk").data) true ∈
      (removeEmptyTables fofC5 wC5).trace ∧
    destrOpenCount (removeEmptyTables fofC5 wC5).trace = 1 ∧
    (removeEmptyTables fofC5 wC5).result = some fixedBeforeMsg := by
  refine ⟨?_, ?_, ?_⟩ <;> decide

/-- C5 amended: after a successful backup the workflow performs the
destructive open at most twice: if the first destructive open succeeds
it closes that handle (the last trace event) and reports the fatal
"fixed before restart" error, with exactly one destructive open made;
otherwise it makes the second destructive open — exactly two in total —
reporting fatal with the underlying error if the second fails and
reporting fixed (nil) if it succeeds. -/
theorem C5_amended_destructive_sequence (fof : Fof) (w : WIn) (e0 : List Char)
    (h0 : w.opens 0 = some e0)
    (hc : containsSub e0 checksumMarker = true)
    (hf : w.fileOpenErr = none)
    (hs : w.statErr = none)
    (hz : (!allZerosOf w.reads && !fof.forceNotEmpty) = false)
    (hm : w.mkDirErr = none)
    (hcp : w.copyDirErr = none) :
    (w.opens 1 = none →
      (removeEmptyTables fof w).result = some fixedBeforeMsg ∧
      destrOpenCount (removeEmptyTables fof w).trace = 1 ∧
      (removeEmptyTables fof w).trace.getLast? = some Ev.closeDB) ∧
    (∀ e1, w.opens 1 = some e1 →
      destrOpenCount (removeEmptyTables fof w).trace = 2 ∧
      (∀ e2, w.opens 2 = some e2 →
        (removeEmptyTables fof w).result = some (fixFailMsg e2)) ∧
      (w.opens 2 = none →
        (removeEmptyTables fof w).result = none ∧
        Ev.printed fixedMsg ∈ (removeEmptyTables fof w).trace)) := by
  constructor
  · intro h1
    rw [run_fixedBefore_eq fof w e0 h0 hc hf hs hz hm hcp h1]
    exact ⟨rfl, by simp [destrOpenCount], rfl⟩
  · intro e1 h1
    cases h2 : w.opens 2 with
    | some e2 =>
      rw [run_fixFail_eq fof w e0 e1 e2 h0 hc hf hs hz hm hcp h1 h2]
      refine ⟨by simp [destrOpenCount], ?_, ?_⟩
      · intro e2x h2x
        injection h2x with he
        rw [← he]
      · intro h2n
        simp at h2n
    | none =>
      rw [run_fixed_eq fof w e0 e1 h0 hc hf hs hz hm hcp h1 h2]
      refine ⟨by simp [destrOpenCount], ?_, ?_⟩
      · intro e2x h2x
        simp at h2x
      · intro _
        exact ⟨rfl, by simp⟩

/-- Concrete run for the C5 amended witness: first destructive open
fails, second succeeds. -/
def fofC5w : Fof := ⟨("bk").data, true⟩

def wC5w : WIn :=
  { opens := fun n =>
      if n = 0 then some (("checksum: /db/t1.sst").data)
      else if n = 1 then some (("still corrupted").data)
      else none,
    fileOpenErr := none, statErr := none,
    reads := [([0], none), ([], some (("EOF").data))],
    mkDirErr := none, copyDirErr := none,
    storeDir := ("db").data, now := 3 }

/-- Witness for the amended C5: two destructive opens and a nil result
on a run whose first destructive open fails and second succeeds. -/
theorem C5_amended_witness :
    destrOpenCount (removeEmptyTables fofC5w wC5w).trace = 2 ∧
    (removeEmptyTables fofC5w wC5w).result = none := by
  have h := (C5_amended_destructive_sequence fofC5w wC5w
    (("checksum: /db/t1.sst").data) rfl (by decide) rfl rfl (by decide)
    rfl rfl).2 (("still corrupted").data) rfl
  exact ⟨h.1, (h.2.2 rfl).1⟩

/-- Concrete run for the C9 counterexample: the caller supplied no
backup directory, and the run reaches the backup step. -/
def fofC9 : Fof := ⟨[], false⟩

def wC9 : WIn :=
  { opens := fun n =>
      if n = 0 then some (("checksum: /db/t1.sst").data)
      else if n = 1 then some (("still corrupted").data)
      else none,
    fileOpenErr := none, statErr := none,
    reads := [([0, 0], none), ([], some (("EOF").data))],
    mkDirErr := none, copyDirErr := none,
    storeDir := ("db").data, now := 7 }

/-- Counterexample to C9 as stated: the claim says neither recovery
option is modified by any step of the workflow.  On this run the
caller-supplied backup directory is empty, and the backup step
overwrites the global `fof.backupDir` with the generated
store-name/timestamp path (fix.go line 110). -/
theorem C9_counterexample :
    fofC9.backupDir = [] ∧
    (removeEmptyTables fofC9 wC9).fof.backupDir =
      genBackupName (("db").data) 7 ∧
    (removeEmptyTables fofC9 wC9).fof.backupDir ≠ fofC9.backupDir := by
  refine ⟨rfl, ?_, ?_⟩ <;> decide

/-- C9 amended: the force flag is never modified by any step of the
workflow, and the backup-directory option is unmodified on every run on
which it was non-empty at entry; when it is empty at entry, the backup
step overwrites it with the generated name. -/
theorem C9_amended_options_mutation (fof : Fof) (w : WIn) :
    (removeEmptyTables fof w).fof.forceNotEmpty = fof.forceNotEmpty ∧
    (fof.backupDir ≠ [] →
      (removeEmptyTables fof w).fof.backupDir = fof.backupDir) := by
  unfold removeEmptyTables
  cases h0 : w.opens 0 with
  | none => exact ⟨rfl, fun _ => rfl⟩
  | some e0 =>
    by_cases hc : containsSub e0 checksumMarker = false
    · simp [hc]
    · simp only [if_neg hc]
      cases hf : w.fileOpenErr with
      | some fe => exact ⟨rfl, fun _ => rfl⟩
      | none =>
        cases hs : w.statErr with
        | some se => exact ⟨rfl, fun _ => rfl⟩
        | none =>
          by_cases hz : (!allZerosOf w.reads && !fof.forceNotEmpty) = true
          · simp [hz]
          · simp only [if_neg hz]
            cases hm : w.mkDirErr with
            | some me =>
              exact ⟨fofAfterBackupName_forceNotEmpty fof w,
                fun hne => fofAfterBackupName_backupDir_of_ne fof w hne⟩
            | none =>
              cases hcp : w.copyDirErr with
              | some ce =>
                exact ⟨fofAfterBackupName_forceNotEmpty fof w,
                  fun hne => fofAfterBackupName_backupDir_of_ne fof w hne⟩
              | none =>
                cases h1 : w.opens 1 with
                | none =>
                  exact ⟨fofAfterBackupName_forceNotEmpty fof w,
                    fun hne => fofAfterBackupName_backupDir_of_ne fof w hne⟩
                | some e1 =>
                  cases h2 : w.opens 2 with
                  | some e2 =>
                    exact ⟨fofAfterBackupName_forceNotEmpty fof w,
                      fun hne => fofAfterBackupName_backupDir_of_ne fof w hne⟩
                  | none =>
                    exact ⟨fofAfterBackupName_forceNotEmpty fof w,
                      fun hne => fofAfterBackupName_backupDir_of_ne fof w hne⟩

/-- Concrete run for the C9 amended witness: a caller-supplied
(non-empty) backup directory surviving a full fixed-path run. -/
def fofC9w : Fof := ⟨("bk").data, false⟩

def wC9w : WIn :=
  { opens := fun n =>
      if n = 0 then some (("checksum: /db/t1.sst").data)
      else if n = 1 then some (("still corrupted").data)
      else none,
    fileOpenErr := none, statErr := none,
    reads := [([0, 0], none), ([], some (("EOF").data))],
    mkDirErr := none, copyDirErr := none,
    storeDir := ("db").data, now := 7 }

/-- Witness for the amended C9 on a concrete run with a caller-supplied
backup directory. -/
theorem C9_amended_witness :
    (removeEmptyTables fofC9w wC9w).fof.forceNotEmpty = false ∧
    (removeEmptyTables fofC9w wC9w).fof.backupDir = ("bk").data := by
  have h := C9_amended_options_mutation fofC9w wC9w
  exact ⟨h.1, h.2 (by decide)⟩

/-- Concrete run for the C8 counterexample: after one clean all-zero
chunk, a read on the implicated file fails with a genuine I/O error; all
other external calls succeed as on the fixed path. -/
def fofC8 : Fof := ⟨("bk").data, false⟩

def wC8 : WIn :=
  { opens := fun n =>
      if n = 0 then some (("checksum: /db/t1.sst").data)
      else if n = 1 then some (("still corrupted").data)
      else none,
    fileOpenErr := none, statErr := none,
    reads := [([0, 0], none),
              ([], some (("read /db/t1.sst: input/output error").data))],
    mkDirErr := none, copyDirErr := none,
    storeDir := ("db").data, now := 7 }

/-- Counterexample to C8 as stated: the claim says every filesystem
error — including errors while reading the implicated file in
fixed-size chunks — is surfaced to the caller.  On this run a read
returns the I/O error above, yet the loop at fix.go lines 88-99 merely
breaks out (it cannot tell the error from EOF): the run returns nil and
no printed message mentions the error text. -/
theorem C8_counterexample :
    (([], some (("read /db/t1.sst: input/output error").data)) ∈
      wC8.reads) ∧
    (removeEmptyTables fofC8 wC8).result = none ∧
    (removeEmptyTables fofC8 wC8).trace.all (fun ev =>
      match ev with
      | Ev.printed m => !containsSub m (("input/output error").data)
      | _ => true) = true := by
  refine ⟨?_, ?_, ?_⟩ <;> decide

/-- C8 amended: every filesystem or engine error encountered by the
workflow — EXCEPT errors returned by the chunked reads of the emptiness
check, which only terminate the scan and are swallowed — is surfaced to
the caller in the returned error together with its context: the
unsupported probe error carries the engine text, the inspection
open/stat failures carry the operation and the file path, the
backup-directory and copy failures carry the operation (and directory),
and the final destructive-open failure carries the engine text. -/
theorem C8_amended_error_surfacing (fof : Fof) (w : WIn) :
    (∀ e0, w.opens 0 = some e0 → containsSub e0 checksumMarker = false →
      (removeEmptyTables fof w).result = some (unsupportedMsg e0)) ∧
    (∀ e0 fe, w.opens 0 = some e0 → containsSub e0 checksumMarker = true →
      w.fileOpenErr = some fe →
      (removeEmptyTables fof w).result =
        some (openTableMsg (extractPath e0) fe)) ∧
    (∀ e0 se, w.opens 0 = some e0 → containsSub e0 checksumMarker = true →
      w.fileOpenErr = none → w.statErr = some se →
      (removeEmptyTables fof w).result =
        some (statTableMsg (extractPath e0) se)) ∧
    (∀ e0 me, w.opens 0 = some e0 → containsSub e0 checksumMarker = true →
      w.fileOpenErr = none → w.statErr = none →
      (!allZerosOf w.reads && !fof.forceNotEmpty) = false →
      w.mkDirErr = some me →
      (removeEmptyTables fof w).result =
        some (mkBackupMsg (fofAfterBackupName fof w).backupDir me)) ∧
    (∀ e0 ce, w.opens 0 = some e0 → containsSub e0 checksumMarker = true →
      w.fileOpenErr = none → w.statErr = none →
      (!allZerosOf w.reads && !fof.forceNotEmpty) = false →
      w.mkDirErr = none → w.copyDirErr = some ce →
      (removeEmptyTables fof w).result = some (backupFailMsg ce)) ∧
    (∀ e0 e1 e2, w.opens 0 = some e0 → containsSub e0 checksumMarker = true →
      w.fileOpenErr = none → w.statErr = none →
      (!allZerosOf w.reads && !fof.forceNotEmpty) = false →
      w.mkDirErr = none → w.copyDirErr = none →
      w.opens 1 = some e1 → w.opens 2 = some e2 →
      (removeEmptyTables fof w).result = some (fixFailMsg e2)) := by
  refine ⟨?_, ?_, ?_, ?_, ?_, ?_⟩
  · intro e0 h0 hc
    rw [run_unsupported_eq fof w e0 h0 hc]
  · intro e0 fe h0 hc hf
    rw [run_fileOpenErr_eq fof w e0 fe h0 hc hf]
  · intro e0 se h0 hc hf hs
    rw [run_statErr_eq fof w e0 se h0 hc hf hs]
  · intro e0 me h0 hc hf hs hz hm
    rw [run_mkDirErr_eq fof w e0 me h0 hc hf hs hz hm]
  · intro e0 ce h0 hc hf hs hz hm hcp
    rw [run_copyErr_eq fof w e0 ce h0 hc hf hs hz hm hcp]
  · intro e0 e1 e2 h0 hc hf hs hz hm hcp h1 h2
    rw [run_fixFail_eq fof w e0 e1 e2 h0 hc hf hs hz hm hcp h1 h2]

/-- Concrete run for the C8 amended witness: the inspection open of the
extracted path fails. -/
def fofC8w : Fof := ⟨("bk").data, false⟩

def wC8w : WIn :=
  { opens := fun n =>
      if n = 0 then some (("checksum: /db/t9.sst").data) else none,
    fileOpenErr := some (("open /db/t9.sst: no such file or directory").data),
    statErr := none, reads := [],
    mkDirErr := none, copyDirErr := none,
    storeDir := ("db").data, now := 7 }

/-- Witness for the amended C8: the inspection-open failure is surfaced
with the operation and the path. -/
theorem C8_amended_witness :
    (removeEmptyTables fofC8w wC8w).result =
      some (openTableMsg (extractPath (("checksum: /db/t9.sst").data))
        (("open /db/t9.sst: no such file or directory").data)) :=
  (C8_amended_error_surfacing fofC8w wC8w).2.1 _ _ rfl (by decide) rfl

end Fix
